import Mathlib

/-!
Verification development for the CiscoMCPPods streamable-HTTP MCP server.

The definitions below are a shallow embedding of the JavaScript source:
  * the in-memory event store (InMemoryEventStore in src/server-http.js),
  * the API-key authentication middleware (authenticateApiKey),
  * the MCP POST/GET/DELETE route handlers and the session registry
    (the transports map),
  * the tool-call and resource-read request handlers of the MCP server,
  * the backend REST client request construction (src/podsClient.js)
    and the configuration object (src/config.js).

JavaScript values relevant to the control flow are modelled by JSValue;
JavaScript truthiness tests on optional strings are modelled by strTruthy.
-/

/-- Model of a JavaScript/JSON value, sufficient for the control flow of the
server: request bodies, tool arguments and backend results. -/
inductive JSValue where
  | null
  | bool (b : Bool)
  | num (n : Int)
  | str (s : String)
  | arr (elems : List JSValue)
  | obj (fields : List (String × JSValue))

/-- JavaScript truthiness of a JSValue: null and undefined are modelled by
JSValue.null; empty strings, zero and false are falsy; arrays and objects
are always truthy. -/
def jsTruthy : JSValue → Bool
  | JSValue.null => false
  | JSValue.bool b => b
  | JSValue.num n => n != 0
  | JSValue.str s => s != ""
  | JSValue.arr _ => true
  | JSValue.obj _ => true

/-- Property access v.k on a JSValue: defined only on objects, undefined
(none) otherwise, mirroring JavaScript property lookup on non-objects. -/
def jsGetField : JSValue → String → Option JSValue
  | JSValue.obj fields, k => (fields.find? (fun p => p.1 == k)).map Prod.snd
  | _, _ => none

/-- Rest-spread that removes one key from an object, modelling the
destructuring const (collection, ...podData) = args in the tool handler. -/
def jsRemoveField : JSValue → String → JSValue
  | JSValue.obj fields, k => JSValue.obj (fields.filter (fun p => ! (p.1 == k)))
  | v, _ => v

mutual

/-- Model of JSON.stringify on a JSValue (pretty-printing whitespace of the
two-space indent used in the source is elided; only the serialised content
matters for the properties below). -/
def jsonStringify : JSValue → String
  | JSValue.null => "null"
  | JSValue.bool true => "true"
  | JSValue.bool false => "false"
  | JSValue.num n => toString n
  | JSValue.str s => "\"" ++ s ++ "\""
  | JSValue.arr xs => "[" ++ jsonStringifyArray xs ++ "]"
  | JSValue.obj fs => "\x7b" ++ jsonStringifyFields fs ++ "\x7d"

/-- Serialises the element list of a JSON array. -/
def jsonStringifyArray : List JSValue → String
  | [] => ""
  | [x] => jsonStringify x
  | x :: xs => jsonStringify x ++ "," ++ jsonStringifyArray xs

/-- Serialises the field list of a JSON object. -/
def jsonStringifyFields : List (String × JSValue) → String
  | [] => ""
  | [(k, v)] => "\"" ++ k ++ "\":" ++ jsonStringify v
  | (k, v) :: fs => "\"" ++ k ++ "\":" ++ jsonStringify v ++ "," ++ jsonStringifyFields fs

end

/-- JavaScript truthiness of an optional string, as used on header values and
configuration entries: a missing value (undefined) and the empty string are
both falsy. -/
def strTruthy : Option String → Bool
  | none => false
  | some s => s != ""

/-- Helper to check whether a request body is an initialize request, from
src/server-http.js: body and body.method === initialize. -/
def isInitializeRequest (body : JSValue) : Bool :=
  jsTruthy body &&
    match jsGetField body "method" with
    | some (JSValue.str s) => s == "initialize"
    | _ => false

/-- An event stored in the per-session event log. The transport supplies the
event record; the store itself never assigns or inspects ids. -/
structure MCPEvent where
  id : String
  payload : String
deriving DecidableEq

/-- The in-memory event store: a map from session id to the ordered list of
stored events, modelled as an association list in insertion order
(JavaScript Map preserves insertion order). -/
structure InMemoryEventStore where
  events : List (String × List MCPEvent)
deriving DecidableEq

/-- Map lookup this.events.get(sessionId). -/
def storeGet (store : InMemoryEventStore) (sessionId : String) : Option (List MCPEvent) :=
  (store.events.find? (fun p => p.1 == sessionId)).map Prod.snd

/-- InMemoryEventStore.getEventsAfter from src/server-http.js: the stored
list for the session (or empty), returned whole when afterEventId is falsy
or not found, otherwise the slice following the first index whose id
matches. -/
def getEventsAfter (store : InMemoryEventStore) (sessionId : String)
    (afterEventId : Option String) : List MCPEvent :=
  let sessionEvents := (storeGet store sessionId).getD []
  if ! strTruthy afterEventId then
    sessionEvents
  else
    match sessionEvents.findIdx? (fun e => e.id == afterEventId.getD "") with
    | none => sessionEvents
    | some afterIndex => sessionEvents.drop (afterIndex + 1)

/-- InMemoryEventStore.addEvent: creates the session entry on first use,
then pushes the given event at the end of the session list. -/
def addEvent (store : InMemoryEventStore) (sessionId : String) (event : MCPEvent) :
    InMemoryEventStore :=
  if ((store.events.find? (fun p => p.1 == sessionId)).isSome : Bool) then
    { events := store.events.map (fun p =>
        if p.1 == sessionId then (p.1, p.2 ++ [event]) else p) }
  else
    { events := store.events ++ [(sessionId, [event])] }

/-- InMemoryEventStore.clearSession: drops the stored events of one session. -/
def clearSession (store : InMemoryEventStore) (sessionId : String) : InMemoryEventStore :=
  { events := store.events.filter (fun p => ! (p.1 == sessionId)) }

/-- Sequence of addEvent calls for one session, in order. -/
def addEvents (store : InMemoryEventStore) (sessionId : String) (evs : List MCPEvent) :
    InMemoryEventStore :=
  evs.foldl (fun st e => addEvent st sessionId e) store

/-- The event log currently stored for a session (empty when absent). -/
def eventLog (store : InMemoryEventStore) (sessionId : String) : List MCPEvent :=
  (storeGet store sessionId).getD []

/-- The configuration object from src/config.js; optional entries model
environment variables that may be unset. -/
structure PodsConfig where
  apiBaseUrl : String
  authMode : String
  apiKeyPods : Option String
  jwtToken : Option String
  serverPort : Int
  serverPath : String
  mcpApiKey : Option String
deriving DecidableEq

/-- Outcome of the authentication middleware: pass the request on, or end it
with a status and a JSON-RPC error body. -/
inductive AuthResult where
  | next
  | reject (status : Nat) (code : Int) (message : String)
deriving DecidableEq

/-- The authenticateApiKey middleware from src/server-http.js: the health and
root paths bypass the gate, an unconfigured key disables the gate, a falsy
x-api-key header is rejected 401, a non-matching one 403. -/
def authenticateApiKey (cfg : PodsConfig) (path : String) (apiKeyHeader : Option String) :
    AuthResult :=
  if path = cfg.serverPath ++ "/health" ∨ path = "/" then
    AuthResult.next
  else if ! strTruthy cfg.mcpApiKey then
    AuthResult.next
  else if ! strTruthy apiKeyHeader then
    AuthResult.reject 401 (-32001) "Unauthorized: Missing X-API-Key header"
  else if apiKeyHeader ≠ cfg.mcpApiKey then
    AuthResult.reject 403 (-32002) "Forbidden: Invalid API key"
  else
    AuthResult.next

/-- The per-session transport as far as the repository configures it: the
StreamableHTTPServerTransport is constructed with enableJsonResponse. -/
structure Transport where
  enableJsonResponse : Bool
deriving DecidableEq

/-- The session registry: the module-level transports map of
src/server-http.js, keyed by session id. -/
structure ServerState where
  transports : List (String × Transport)
deriving DecidableEq

/-- Registry lookup transports[sessionId]. -/
def lookupTransport (s : ServerState) (sessionId : String) : Option Transport :=
  (s.transports.find? (fun p => p.1 == sessionId)).map Prod.snd

/-- The HTTP response produced by a route handler: a JSON body carrying a
JSON-RPC error object, a plain text body, or delegation to
transport.handleRequest. -/
inductive HttpResponse where
  | jsonRpcError (status : Nat) (code : Int) (message : String)
  | textResponse (status : Nat) (body : String)
  | handled
deriving DecidableEq

/-- The POST /mcp route handler from src/server-http.js. A truthy session id
with a registered transport reuses it; a falsy session id with an
initialize body creates a transport with enableJsonResponse true, whose
onsessioninitialized callback registers it under the freshly generated id
(newSessionId models the randomUUID result); every other combination is
rejected 400 with JSON-RPC code -32000 and the registry is unchanged. -/
def handleMcpPost (s : ServerState) (sessionId : Option String) (body : JSValue)
    (newSessionId : String) : HttpResponse × ServerState :=
  if strTruthy sessionId && (lookupTransport s (sessionId.getD "")).isSome then
    (HttpResponse.handled, s)
  else if ! strTruthy sessionId && isInitializeRequest body then
    (HttpResponse.handled,
      { transports := s.transports ++ [(newSessionId, { enableJsonResponse := true })] })
  else
    (HttpResponse.jsonRpcError 400 (-32000) "Bad Request: No valid session ID provided", s)

/-- The GET /mcp route handler: a falsy or unregistered session id is
rejected 400 with a plain text body; otherwise the request is delegated to
the transport. -/
def handleMcpGet (s : ServerState) (sessionId : Option String) :
    HttpResponse × ServerState :=
  if ! strTruthy sessionId || (lookupTransport s (sessionId.getD "")).isNone then
    (HttpResponse.textResponse 400 "Invalid or missing session ID", s)
  else
    (HttpResponse.handled, s)

/-- The DELETE /mcp route handler: a falsy or unregistered session id is
rejected 400 with a plain text body; otherwise the transport handles the
termination and its onclose callback removes it from the registry. -/
def handleMcpDelete (s : ServerState) (sessionId : Option String) :
    HttpResponse × ServerState :=
  if ! strTruthy sessionId || (lookupTransport s (sessionId.getD "")).isNone then
    (HttpResponse.textResponse 400 "Invalid or missing session ID", s)
  else
    (HttpResponse.handled,
      { transports := s.transports.filter (fun p => ! (p.1 == sessionId.getD "")) })

/-- One inbound HTTP request processed by an MCP route handler. -/
inductive Step : ServerState → ServerState → Prop where
  | post (s : ServerState) (sessionId : Option String) (body : JSValue) (newSessionId : String) :
      Step s (handleMcpPost s sessionId body newSessionId).2
  | get (s : ServerState) (sessionId : Option String) :
      Step s (handleMcpGet s sessionId).2
  | del (s : ServerState) (sessionId : Option String) :
      Step s (handleMcpDelete s sessionId).2

/-- Registry states reachable from the initial empty transports map. -/
def Reachable (s : ServerState) : Prop :=
  Relation.ReflTransGen Step { transports := [] } s

/-- The backend adapter boundary: one field per podsClient method invoked by
the tool handler, each taking the values the handler extracts from the tool
arguments and returning either a result value or the message of a thrown
error. -/
structure PodsClientModel where
  getPodKeyword : Unit → Except String JSValue
  updatePodKeyword : Option JSValue → Except String JSValue
  getAllPods : Option JSValue → Except String JSValue
  getPodByNumber : Option JSValue → Option JSValue → Except String JSValue
  createPod : Option JSValue → JSValue → Except String JSValue
  updatePod : Option JSValue → Option JSValue → Option JSValue → Except String JSValue
  deletePod : Option JSValue → Option JSValue → Except String JSValue

/-- The static tool catalog names declared by the ListTools handler and
dispatched by the CallTool handler in src/server-http.js. -/
def knownToolNames : List String :=
  ["get_pod_keyword", "update_pod_keyword", "get_all_pods", "get_pod_by_number",
   "create_pod", "update_pod", "delete_pod"]

/-- The switch over the tool name inside the try block of the CallTool
handler: each registered name invokes the corresponding podsClient method
with the extracted arguments; the default branch throws Unknown tool. -/
def dispatchTool (client : PodsClientModel) (name : String) (args : JSValue) :
    Except String JSValue :=
  if name = "get_pod_keyword" then
    client.getPodKeyword ()
  else if name = "update_pod_keyword" then
    client.updatePodKeyword (jsGetField args "keyword")
  else if name = "get_all_pods" then
    client.getAllPods (jsGetField args "collection")
  else if name = "get_pod_by_number" then
    client.getPodByNumber (jsGetField args "collection") (jsGetField args "number")
  else if name = "create_pod" then
    client.createPod (jsGetField args "collection") (jsRemoveField args "collection")
  else if name = "update_pod" then
    client.updatePod (jsGetField args "collection") (jsGetField args "number")
      (jsGetField args "updates")
  else if name = "delete_pod" then
    client.deletePod (jsGetField args "collection") (jsGetField args "number")
  else
    Except.error ("Unknown tool: " ++ name)

/-- One content item of a tool result. -/
structure ContentItem where
  type : String
  text : String
deriving DecidableEq

/-- The value returned by the CallTool handler: a content list plus the
isError marker (absent on success in the source, hence false here). -/
structure ToolCallResult where
  content : List ContentItem
  isError : Bool
deriving DecidableEq

/-- The serialised error payload produced by the catch branch of the
CallTool handler. -/
def toolErrorText (message : String) : String :=
  jsonStringify (JSValue.obj
    [("error", JSValue.str message),
     ("details", JSValue.str "Failed to execute API request.")])

/-- The CallTool request handler from src/server-http.js: the try block
dispatches on the tool name and wraps the result as a text content item;
the catch branch converts any thrown error (unknown tool or adapter
failure) into a returned result with isError true. The handler is a total
function, so the JSON-RPC call itself always succeeds. -/
def callToolRequestHandler (client : PodsClientModel) (name : String) (args : JSValue) :
    ToolCallResult :=
  match dispatchTool client name args with
  | Except.ok result =>
      { content := [{ type := "text", text := jsonStringify result }], isError := false }
  | Except.error msg =>
      { content := [{ type := "text", text := toolErrorText msg }], isError := true }

/-- One content item of a resource read result. -/
structure ResourceContent where
  uri : String
  mimeType : String
  text : String
deriving DecidableEq

/-- Outcome of a JSON-RPC request at the envelope level: a success result or
a JSON-RPC error object. The rpcError constructor exists to state what a
protocol error result would be; the resource handler below never produces
it. -/
inductive RpcOutcome where
  | result (contents : List ResourceContent)
  | rpcError (code : Int) (message : String)
deriving DecidableEq

/-- Whether an envelope outcome is a JSON-RPC error result. -/
def isRpcError : RpcOutcome → Bool
  | RpcOutcome.result _ => false
  | RpcOutcome.rpcError _ _ => true

/-- The known resource URIs declared by the ListResources handler. -/
def knownResourceUris : List String :=
  ["pods://keyword", "pods://config"]

/-- The serialised error payload produced by the catch branch of the
ReadResource handler. -/
def resourceErrorText (message : String) : String :=
  jsonStringify (JSValue.obj
    [("error", JSValue.str message),
     ("details", JSValue.str "Failed to fetch resource.")])

/-- The configuration snapshot served for the pods config resource. -/
def configResource (cfg : PodsConfig) : JSValue :=
  JSValue.obj
    [("baseUrl", JSValue.str cfg.apiBaseUrl),
     ("authMode", JSValue.str cfg.authMode),
     ("hasApiKey", JSValue.bool (strTruthy cfg.apiKeyPods)),
     ("hasJwtToken", JSValue.bool (strTruthy cfg.jwtToken)),
     ("status", JSValue.str "Connected")]

/-- The ReadResource request handler from src/server-http.js: known URIs
resolve to contents; the default branch throws Unknown resource, and the
catch branch returns a normal contents result whose text embeds the error
message. The envelope outcome is always RpcOutcome.result. -/
def readResourceRequestHandler (client : PodsClientModel) (cfg : PodsConfig) (uri : String) :
    RpcOutcome :=
  let tryResult : Except String (List ResourceContent) :=
    if uri = "pods://keyword" then
      match client.getPodKeyword () with
      | Except.ok result =>
          Except.ok [{ uri := uri, mimeType := "application/json",
                       text := jsonStringify result }]
      | Except.error e => Except.error e
    else if uri = "pods://config" then
      Except.ok [{ uri := uri, mimeType := "application/json",
                   text := jsonStringify (configResource cfg) }]
    else
      Except.error ("Unknown resource: " ++ uri)
  match tryResult with
  | Except.ok contents => RpcOutcome.result contents
  | Except.error msg =>
      RpcOutcome.result [{ uri := uri, mimeType := "application/json",
                           text := resourceErrorText msg }]

/-- The request data handed to fetch by podsClient.makeRequest: method,
headers, optional body, and an optional client-side timeout bound. The
source never sets any timeout or abort signal on the request, so the
builders below always leave timeoutMs at none. -/
structure FetchOptions where
  method : String
  headers : List (String × String)
  body : Option String
  timeoutMs : Option Nat
deriving DecidableEq

/-- PodsClient.getAuthHeaders from src/podsClient.js: Content-Type is always
set; the apikey mode adds x-api-key when the key is truthy; the jwt mode
adds the bearer header when the token is truthy. -/
def getAuthHeaders (cfg : PodsConfig) : List (String × String) :=
  [("Content-Type", "application/json")] ++
    (if cfg.authMode == "apikey" && strTruthy cfg.apiKeyPods then
      [("x-api-key", cfg.apiKeyPods.getD "")]
    else if cfg.authMode == "jwt" && strTruthy cfg.jwtToken then
      [("Authorization", "Bearer " ++ cfg.jwtToken.getD "")]
    else [])

/-- PodsClient.makeRequest merges the auth headers into the caller options
before calling fetch; all other option fields, including the absent
timeout, pass through unchanged. -/
def makeRequestInit (cfg : PodsConfig) (options : FetchOptions) : FetchOptions :=
  { options with headers := getAuthHeaders cfg ++ options.headers }

/-- The outbound request built by PodsClient.getPodKeyword. -/
def getPodKeywordRequest (cfg : PodsConfig) : String × FetchOptions :=
  (cfg.apiBaseUrl ++ "/api/v2/pods/keyword",
   makeRequestInit cfg { method := "GET", headers := [], body := none, timeoutMs := none })

/-- The outbound request built by PodsClient.updatePodKeyword. -/
def updatePodKeywordRequest (cfg : PodsConfig) (keywordBody : String) : String × FetchOptions :=
  (cfg.apiBaseUrl ++ "/api/v2/pods/keyword",
   makeRequestInit cfg
     { method := "PATCH", headers := [], body := some keywordBody, timeoutMs := none })

/-- The outbound request built by PodsClient.getAllPods. -/
def getAllPodsRequest (cfg : PodsConfig) (collection : String) : String × FetchOptions :=
  (cfg.apiBaseUrl ++ "/api/v2/pods/" ++ collection,
   makeRequestInit cfg { method := "GET", headers := [], body := none, timeoutMs := none })

/-- The outbound request built by PodsClient.getPodByNumber. -/
def getPodByNumberRequest (cfg : PodsConfig) (collection : String) (number : Int) :
    String × FetchOptions :=
  (cfg.apiBaseUrl ++ "/api/v2/pods/" ++ collection ++ "/" ++ toString number,
   makeRequestInit cfg { method := "GET", headers := [], body := none, timeoutMs := none })

/-- The outbound request built by PodsClient.createPod. -/
def createPodRequest (cfg : PodsConfig) (collection : String) (podDataBody : String) :
    String × FetchOptions :=
  (cfg.apiBaseUrl ++ "/api/v2/pods/" ++ collection,
   makeRequestInit cfg
     { method := "POST", headers := [], body := some podDataBody, timeoutMs := none })

/-- The outbound request built by PodsClient.updatePod. -/
def updatePodRequest (cfg : PodsConfig) (collection : String) (number : Int)
    (updatesBody : String) : String × FetchOptions :=
  (cfg.apiBaseUrl ++ "/api/v2/pods/" ++ collection ++ "/" ++ toString number,
   makeRequestInit cfg
     { method := "PATCH", headers := [], body := some updatesBody, timeoutMs := none })

/-- The outbound request built by PodsClient.deletePod. -/
def deletePodRequest (cfg : PodsConfig) (collection : String) (number : Int) :
    String × FetchOptions :=
  (cfg.apiBaseUrl ++ "/api/v2/pods/" ++ collection ++ "/" ++ toString number,
   makeRequestInit cfg { method := "DELETE", headers := [], body := none, timeoutMs := none })

/-- A request body whose method field is initialize, used as a concrete
instance in witnesses and counterexamples. -/
def sampleInitBody : JSValue :=
  JSValue.obj [("method", JSValue.str "initialize")]

/-- The empty session registry at process start. -/
def emptyServerState : ServerState :=
  { transports := [] }

/-- The empty event store owned by a fresh transport. -/
def emptyEventStore : InMemoryEventStore :=
  { events := [] }

/-- The default configuration values from src/config.js with no environment
overrides set. -/
def sampleConfig : PodsConfig :=
  { apiBaseUrl := "http://apigateway.cxocoe.us"
    authMode := "apikey"
    apiKeyPods := none
    jwtToken := none
    serverPort := 1013
    serverPath := "/CiscoMCPPods"
    mcpApiKey := none }

/-- The default configuration with an MCP API key configured. -/
def keyedConfig : PodsConfig :=
  { sampleConfig with mcpApiKey := some "secret-key" }

/-- A concrete adapter whose calls all succeed. -/
def sampleClient : PodsClientModel :=
  { getPodKeyword := fun _ => Except.ok (JSValue.str "kw")
    updatePodKeyword := fun _ => Except.ok JSValue.null
    getAllPods := fun _ => Except.ok (JSValue.arr [])
    getPodByNumber := fun _ _ => Except.ok JSValue.null
    createPod := fun _ _ => Except.ok JSValue.null
    updatePod := fun _ _ _ => Except.ok JSValue.null
    deletePod := fun _ _ => Except.ok JSValue.null }

/-- A concrete adapter whose calls all fail with a timeout message. -/
def timeoutClient : PodsClientModel :=
  { getPodKeyword := fun _ => Except.error "Request timed out"
    updatePodKeyword := fun _ => Except.error "Request timed out"
    getAllPods := fun _ => Except.error "Request timed out"
    getPodByNumber := fun _ _ => Except.error "Request timed out"
    createPod := fun _ _ => Except.error "Request timed out"
    updatePod := fun _ _ _ => Except.error "Request timed out"
    deletePod := fun _ _ => Except.error "Request timed out" }

/-- Classifier used to state response-format properties: whether a route
handler response is a JSON body carrying a JSON-RPC error object. -/
def isJsonRpcErrorResponse : HttpResponse → Bool
  | HttpResponse.jsonRpcError _ _ _ => true
  | _ => false

/-- A registry that just gained one entry differs from the original. -/
lemma serverState_append_ne (s : ServerState) (x : String × Transport) :
    ({ transports := s.transports ++ [x] } : ServerState) ≠ s := by
  intro h
  have hlen := congrArg (fun t : ServerState => t.transports.length) h
  simp at hlen

/-- The findIdx? search yields the index of the first element matching on id
when nothing before it matches. -/
lemma findIdx?_first_id_match (pre post : List MCPEvent) (e : MCPEvent) (x : String)
    (he : e.id = x) (hpre : ∀ a ∈ pre, a.id ≠ x) :
    List.findIdx? (fun ev => ev.id == x) (pre ++ e :: post) = some pre.length := by
  induction pre with
  | nil => simp [List.findIdx?_cons, he]
  | cons a pre ih =>
      have ha : (a.id == x) = false := by
        simpa using hpre a (List.mem_cons_self a pre)
      have ihh := ih (fun b hb => hpre b (List.mem_cons_of_mem a hb))
      simp [List.findIdx?_cons, ha, ihh]

/-- Lookup with find? commutes with the per-key update map used by addEvent. -/
lemma find?_map_update (l : List (String × List MCPEvent)) (sid : String) (e : MCPEvent) :
    (l.map (fun p => if p.1 == sid then (p.1, p.2 ++ [e]) else p)).find?
        (fun p => p.1 == sid)
      = (l.find? (fun p => p.1 == sid)).map (fun p => (p.1, p.2 ++ [e])) := by
  induction l with
  | nil => rfl
  | cons a l ih =>
      rw [List.map_cons]
      by_cases ha : (a.1 == sid) = true
      · rw [if_pos ha]
        have hh : (((a.1, a.2 ++ [e]) : String × List MCPEvent).1 == sid) = true := ha
        rw [List.find?_cons_of_pos (p := fun q : String × List MCPEvent => q.1 == sid) _ hh]
        rw [List.find?_cons_of_pos (p := fun q : String × List MCPEvent => q.1 == sid) _ ha]
        rfl
      · rw [if_neg ha]
        rw [List.find?_cons_of_neg (p := fun q : String × List MCPEvent => q.1 == sid) _ ha]
        rw [List.find?_cons_of_neg (p := fun q : String × List MCPEvent => q.1 == sid) _ ha]
        exact ih

/-- addEvent takes the update branch when the session entry exists. -/
lemma addEvent_pos (store : InMemoryEventStore) (sid : String) (e : MCPEvent)
    (h : (store.events.find? (fun p => p.1 == sid)).isSome = true) :
    addEvent store sid e
      = { events := store.events.map (fun p =>
            if p.1 == sid then (p.1, p.2 ++ [e]) else p) } := by
  unfold addEvent
  rw [if_pos h]

/-- addEvent takes the insert branch when the session entry is absent. -/
lemma addEvent_neg (store : InMemoryEventStore) (sid : String) (e : MCPEvent)
    (h : ¬ (store.events.find? (fun p => p.1 == sid)).isSome = true) :
    addEvent store sid e = { events := store.events ++ [(sid, [e])] } := by
  unfold addEvent
  rw [if_neg h]

/-- addEvent appends the given event at the end of the session log. -/
lemma eventLog_addEvent (store : InMemoryEventStore) (sid : String) (e : MCPEvent) :
    eventLog (addEvent store sid e) sid = eventLog store sid ++ [e] := by
  cases hx : store.events.find? (fun p => p.1 == sid) with
  | some x =>
      have h : (store.events.find? (fun p => p.1 == sid)).isSome = true := by simp [hx]
      simp only [eventLog, storeGet, addEvent_pos store sid e h]
      rw [find?_map_update, hx]
      simp
  | none =>
      have h : ¬ (store.events.find? (fun p => p.1 == sid)).isSome = true := by simp [hx]
      simp only [eventLog, storeGet, addEvent_neg store sid e h]
      rw [List.find?_append, hx]
      simp

/-- addEvents appends the given events in order at the end of the session
log. -/
lemma eventLog_addEvents (store : InMemoryEventStore) (sid : String) (evs : List MCPEvent) :
    eventLog (addEvents store sid evs) sid = eventLog store sid ++ evs := by
  induction evs generalizing store with
  | nil => simp [addEvents]
  | cons e evs ih =>
      have hstep : addEvents store sid (e :: evs) = addEvents (addEvent store sid e) sid evs := rfl
      rw [hstep, ih, eventLog_addEvent, List.append_assoc]
      rfl

/-- Claim C1, counterexample. The claim states that a session is created if
and only if the request carries no session id header, and that a POST whose
session id is present but unknown is rejected with 400 and code -32000 with
no session registered. A POST carrying the header with an empty value
(which HTTP permits) is a present, unknown session id, yet the handler
treats the empty string as falsy, accepts the initialize body, creates a
transport and registers it: the response is handled, not a 400. -/
theorem c1_counterexample :
    (handleMcpPost emptyServerState (some "") sampleInitBody "u-1").1 = HttpResponse.handled ∧
    (handleMcpPost emptyServerState (some "") sampleInitBody "u-1").2.transports
        = [("u-1", { enableJsonResponse := true })] ∧
    (some "" : Option String).isSome = true := by
  decide

/-- Claim C1, amended: a new session (transport) is created and registered
if and only if the session id header is absent or empty (JS-falsy) and the
body is an initialize method call; a POST whose session id is truthy but
not in the registry, or whose session id is falsy and whose body is not an
initialize call, is rejected with HTTP 400 and JSON-RPC error code -32000,
and the registry is unchanged. -/
theorem c1_session_creation :
    (∀ (s : ServerState) (sessionId : Option String) (body : JSValue) (newSessionId : String),
        (handleMcpPost s sessionId body newSessionId).2 ≠ s ↔
          (strTruthy sessionId = false ∧ isInitializeRequest body = true)) ∧
    (∀ (s : ServerState) (sessionId : Option String) (body : JSValue) (newSessionId : String),
        strTruthy sessionId = true → lookupTransport s (sessionId.getD "") = none →
        handleMcpPost s sessionId body newSessionId
          = (HttpResponse.jsonRpcError 400 (-32000)
              "Bad Request: No valid session ID provided", s)) ∧
    (∀ (s : ServerState) (sessionId : Option String) (body : JSValue) (newSessionId : String),
        strTruthy sessionId = false → isInitializeRequest body = false →
        handleMcpPost s sessionId body newSessionId
          = (HttpResponse.jsonRpcError 400 (-32000)
              "Bad Request: No valid session ID provided", s)) := by
  refine ⟨?_, ?_, ?_⟩
  · intro s sessionId body newSessionId
    unfold handleMcpPost
    split_ifs with h1 h2
    · simp only [Bool.and_eq_true] at h1
      simp [h1.1]
    · simp only [Bool.and_eq_true, Bool.not_eq_true'] at h2
      exact iff_of_true (serverState_append_ne s _) h2
    · simp only [Bool.and_eq_true, Bool.not_eq_true'] at h2
      constructor
      · intro hne
        exact absurd rfl hne
      · intro hrhs
        exact absurd hrhs h2
  · intro s sessionId body newSessionId hsid hlook
    unfold handleMcpPost
    rw [if_neg (by simp [hlook]), if_neg (by simp [hsid])]
  · intro s sessionId body newSessionId hsid hbody
    unfold handleMcpPost
    rw [if_neg (by simp [hsid]), if_neg (by simp [hsid, hbody])]

/-- Claim C1 witness: concrete rejected requests, applying the amended
theorem at a truthy unknown session id and at a falsy session id with a
non-initialize body. -/
theorem c1_witness :
    handleMcpPost emptyServerState (some "abc") sampleInitBody "u-1"
        = (HttpResponse.jsonRpcError 400 (-32000)
            "Bad Request: No valid session ID provided", emptyServerState) ∧
    handleMcpPost emptyServerState none (JSValue.obj []) "u-1"
        = (HttpResponse.jsonRpcError 400 (-32000)
            "Bad Request: No valid session ID provided", emptyServerState) := by
  constructor
  · exact c1_session_creation.2.1 emptyServerState (some "abc") sampleInitBody "u-1"
      (by decide) (by decide)
  · exact c1_session_creation.2.2 emptyServerState none (JSValue.obj []) "u-1"
      (by decide) (by rfl)

/-- Claim C2, counterexample. The claim states that for every supplied
last-delivered event id X the replay returns the suffix strictly after the
event whose id equals X. Supplying the empty string as X when an event with
id equal to the empty string is stored should therefore return the empty
suffix, but getEventsAfter tests the id with JS truthiness, treats the
empty string as absent and returns the full log. -/
theorem c2_counterexample :
    getEventsAfter { events := [("s", [{ id := "", payload := "p0" }])] } "s" (some "")
        = [{ id := "", payload := "p0" }] ∧
    ([{ id := "", payload := "p0" }] : List MCPEvent) ≠ [] := by
  decide

/-- Claim C2, amended: replay returns the full stored log when the supplied
id is absent, is the empty string (JS-falsy), or matches no stored event;
when a non-empty id matches, it returns the suffix strictly after the first
event whose id equals it, in stored order. -/
theorem c2_replay_after :
    (∀ (store : InMemoryEventStore) (sid : String),
        getEventsAfter store sid none = eventLog store sid) ∧
    (∀ (store : InMemoryEventStore) (sid : String),
        getEventsAfter store sid (some "") = eventLog store sid) ∧
    (∀ (store : InMemoryEventStore) (sid : String) (x : String),
        (∀ e ∈ eventLog store sid, e.id ≠ x) →
        getEventsAfter store sid (some x) = eventLog store sid) ∧
    (∀ (store : InMemoryEventStore) (sid : String) (x : String)
        (pre post : List MCPEvent) (e : MCPEvent),
        x ≠ "" → eventLog store sid = pre ++ e :: post → e.id = x →
        (∀ a ∈ pre, a.id ≠ x) →
        getEventsAfter store sid (some x) = post) := by
  refine ⟨?_, ?_, ?_, ?_⟩
  · intro store sid
    rfl
  · intro store sid
    rfl
  · intro store sid x hall
    by_cases hx : x = ""
    · subst hx
      rfl
    · have htr : strTruthy (some x) = true := by
        simpa [strTruthy] using hx
      have hnone : ((storeGet store sid).getD []).findIdx? (fun e => e.id == x) = none := by
        rw [List.findIdx?_eq_none_iff]
        intro a ha
        simpa using hall a ha
      unfold getEventsAfter
      rw [htr]
      simp only [Bool.not_true, Option.getD_some, hnone]
      rfl
  · intro store sid x pre post e hx hlog he hpre
    have htr : strTruthy (some x) = true := by
      simpa [strTruthy] using hx
    have hsplit : (storeGet store sid).getD [] = pre ++ e :: post := hlog
    have hidx := findIdx?_first_id_match pre post e x he hpre
    unfold getEventsAfter
    rw [htr]
    simp only [Bool.not_true, Option.getD_some, hsplit, hidx]
    show List.drop (pre.length + 1) (pre ++ e :: post) = post
    have hassoc : pre ++ e :: post = (pre ++ [e]) ++ post := by simp
    have hlen : pre.length + 1 = (pre ++ [e]).length := by simp
    rw [hassoc, hlen, List.drop_left]

/-- Claim C2 witness: concrete instances of every amended clause, applying
the amended theorem at a three-event log. -/
theorem c2_witness :
    getEventsAfter { events := [("s", [⟨"e1", "p1"⟩, ⟨"e2", "p2"⟩, ⟨"e3", "p3"⟩])] } "s" none
        = [⟨"e1", "p1"⟩, ⟨"e2", "p2"⟩, ⟨"e3", "p3"⟩] ∧
    getEventsAfter { events := [("s", [⟨"e1", "p1"⟩, ⟨"e2", "p2"⟩, ⟨"e3", "p3"⟩])] } "s" (some "zz")
        = [⟨"e1", "p1"⟩, ⟨"e2", "p2"⟩, ⟨"e3", "p3"⟩] ∧
    getEventsAfter { events := [("s", [⟨"e1", "p1"⟩, ⟨"e2", "p2"⟩, ⟨"e3", "p3"⟩])] } "s" (some "e1")
        = [⟨"e2", "p2"⟩, ⟨"e3", "p3"⟩] := by
  refine ⟨?_, ?_, ?_⟩
  · exact c2_replay_after.1 { events := [("s", [⟨"e1", "p1"⟩, ⟨"e2", "p2"⟩, ⟨"e3", "p3"⟩])] } "s"
  · exact c2_replay_after.2.2.1 { events := [("s", [⟨"e1", "p1"⟩, ⟨"e2", "p2"⟩, ⟨"e3", "p3"⟩])] }
      "s" "zz" (by decide)
  · exact c2_replay_after.2.2.2 { events := [("s", [⟨"e1", "p1"⟩, ⟨"e2", "p2"⟩, ⟨"e3", "p3"⟩])] }
      "s" "e1" [] [⟨"e2", "p2"⟩, ⟨"e3", "p3"⟩] ⟨"e1", "p1"⟩
      (by decide) (by decide) (by decide) (by decide)

/-- Claim C3, confirmed: a tools/call with a name outside the static catalog
returns a normal result whose isError is true and whose text embeds the
message Unknown tool followed by the name; any error raised by the backend
adapter during dispatch is likewise downgraded to an isError result. The
handler is a total function on all inputs, which models the absence of any
transport-level failure: the JSON-RPC call itself always yields a success
envelope carrying the result. -/
theorem c3_tool_call_error_downgrade :
    (∀ (client : PodsClientModel) (args : JSValue) (name : String),
        name ∉ knownToolNames →
        callToolRequestHandler client name args
          = { content := [{ type := "text",
                            text := toolErrorText ("Unknown tool: " ++ name) }],
              isError := true }) ∧
    (∀ (client : PodsClientModel) (args : JSValue) (name : String) (msg : String),
        dispatchTool client name args = Except.error msg →
        callToolRequestHandler client name args
          = { content := [{ type := "text", text := toolErrorText msg }],
              isError := true }) := by
  constructor
  · intro client args name h
    simp only [knownToolNames, List.mem_cons, List.mem_singleton, not_or] at h
    obtain ⟨h1, h2, h3, h4, h5, h6, h7, -⟩ := h
    have hd : dispatchTool client name args = Except.error ("Unknown tool: " ++ name) := by
      unfold dispatchTool
      rw [if_neg h1, if_neg h2, if_neg h3, if_neg h4, if_neg h5, if_neg h6, if_neg h7]
    unfold callToolRequestHandler
    rw [hd]
  · intro client args name msg h
    unfold callToolRequestHandler
    rw [h]

/-- Claim C3 witness: the unknown-tool case at a concrete name outside the
catalog, and the adapter-error case at a registered tool whose backend call
fails, both applying the theorem. -/
theorem c3_witness :
    callToolRequestHandler sampleClient "nonexistent_tool" (JSValue.obj [])
        = { content := [{ type := "text",
                          text := toolErrorText ("Unknown tool: " ++ "nonexistent_tool") }],
            isError := true } ∧
    callToolRequestHandler timeoutClient "get_all_pods" (JSValue.obj [])
        = { content := [{ type := "text", text := toolErrorText "Request timed out" }],
            isError := true } := by
  constructor
  · exact c3_tool_call_error_downgrade.1 sampleClient (JSValue.obj []) "nonexistent_tool"
      (by decide)
  · exact c3_tool_call_error_downgrade.2 timeoutClient (JSValue.obj []) "get_all_pods"
      "Request timed out" (by rfl)

/-- Claim C4, counterexample. The claim states that a request with a
non-matching API-key header value is rejected with HTTP 403 and code
-32002. A header that is present with the empty value is a non-matching
value, yet the middleware tests it with JS truthiness and rejects it with
401 and code -32001 instead. -/
theorem c4_counterexample :
    authenticateApiKey keyedConfig "/CiscoMCPPods/mcp" (some "")
        = AuthResult.reject 401 (-32001) "Unauthorized: Missing X-API-Key header" ∧
    (some "" : Option String) ≠ keyedConfig.mcpApiKey ∧
    authenticateApiKey keyedConfig "/CiscoMCPPods/mcp" (some "")
        ≠ AuthResult.reject 403 (-32002) "Forbidden: Invalid API key" := by
  decide

/-- Claim C4, amended: with no MCP API key configured (unset or empty, both
JS-falsy) the gate passes every request; the health and root paths bypass
the gate unconditionally; with a key configured, a request to any other
path whose API-key header is absent or empty is rejected 401 with code
-32001, a request with a non-empty non-matching value is rejected 403 with
code -32002, and a request carrying exactly the configured key proceeds. -/
theorem c4_auth_gate :
    (∀ (cfg : PodsConfig) (path : String) (h : Option String),
        strTruthy cfg.mcpApiKey = false → authenticateApiKey cfg path h = AuthResult.next) ∧
    (∀ (cfg : PodsConfig) (path : String) (h : Option String),
        (path = cfg.serverPath ++ "/health" ∨ path = "/") →
        authenticateApiKey cfg path h = AuthResult.next) ∧
    (∀ (cfg : PodsConfig) (path : String) (h : Option String),
        ¬ (path = cfg.serverPath ++ "/health" ∨ path = "/") →
        strTruthy cfg.mcpApiKey = true → strTruthy h = false →
        authenticateApiKey cfg path h
          = AuthResult.reject 401 (-32001) "Unauthorized: Missing X-API-Key header") ∧
    (∀ (cfg : PodsConfig) (path : String) (v : String),
        ¬ (path = cfg.serverPath ++ "/health" ∨ path = "/") →
        strTruthy cfg.mcpApiKey = true → v ≠ "" → some v ≠ cfg.mcpApiKey →
        authenticateApiKey cfg path (some v)
          = AuthResult.reject 403 (-32002) "Forbidden: Invalid API key") ∧
    (∀ (cfg : PodsConfig) (path : String),
        ¬ (path = cfg.serverPath ++ "/health" ∨ path = "/") →
        strTruthy cfg.mcpApiKey = true →
        authenticateApiKey cfg path cfg.mcpApiKey = AuthResult.next) := by
  refine ⟨?_, ?_, ?_, ?_, ?_⟩
  · intro cfg path h hkey
    unfold authenticateApiKey
    by_cases hp : path = cfg.serverPath ++ "/health" ∨ path = "/"
    · rw [if_pos hp]
    · rw [if_neg hp, if_pos (by simp [hkey])]
  · intro cfg path h hp
    unfold authenticateApiKey
    rw [if_pos hp]
  · intro cfg path h hp hkey hh
    unfold authenticateApiKey
    rw [if_neg hp, if_neg (by simp [hkey]), if_pos (by simp [hh])]
  · intro cfg path v hp hkey hv hne
    unfold authenticateApiKey
    rw [if_neg hp, if_neg (by simp [hkey]), if_neg (by simp [strTruthy, hv]), if_pos hne]
  · intro cfg path hp hkey
    unfold authenticateApiKey
    rw [if_neg hp, if_neg (by simp [hkey]), if_neg (by simp [hkey]),
      if_neg (show ¬ cfg.mcpApiKey ≠ cfg.mcpApiKey by simp)]

/-- Claim C4 witness: concrete requests through a gate configured with a
secret key, applying each clause of the amended theorem. -/
theorem c4_witness :
    authenticateApiKey sampleConfig "/CiscoMCPPods/mcp" none = AuthResult.next ∧
    authenticateApiKey keyedConfig "/CiscoMCPPods/health" none = AuthResult.next ∧
    authenticateApiKey keyedConfig "/CiscoMCPPods/mcp" none
        = AuthResult.reject 401 (-32001) "Unauthorized: Missing X-API-Key header" ∧
    authenticateApiKey keyedConfig "/CiscoMCPPods/mcp" (some "wrong")
        = AuthResult.reject 403 (-32002) "Forbidden: Invalid API key" ∧
    authenticateApiKey keyedConfig "/CiscoMCPPods/mcp" keyedConfig.mcpApiKey
        = AuthResult.next := by
  refine ⟨?_, ?_, ?_, ?_, ?_⟩
  · exact c4_auth_gate.1 sampleConfig "/CiscoMCPPods/mcp" none (by decide)
  · exact c4_auth_gate.2.1 keyedConfig "/CiscoMCPPods/health" none (by decide)
  · exact c4_auth_gate.2.2.1 keyedConfig "/CiscoMCPPods/mcp" none (by decide) (by decide)
      (by decide)
  · exact c4_auth_gate.2.2.2.1 keyedConfig "/CiscoMCPPods/mcp" "wrong" (by decide) (by decide)
      (by decide) (by decide)
  · exact c4_auth_gate.2.2.2.2 keyedConfig "/CiscoMCPPods/mcp" (by decide) (by decide)

/-- Claim C5, counterexample. The claim states that GET and DELETE requests
with an unknown session id answer HTTP 400 with JSON-RPC error code -32000,
but both handlers answer 400 with the plain text body Invalid or missing
session ID and no JSON-RPC error object at all. -/
theorem c5_counterexample :
    (handleMcpGet emptyServerState (some "nope")).1
        = HttpResponse.textResponse 400 "Invalid or missing session ID" ∧
    isJsonRpcErrorResponse (handleMcpGet emptyServerState (some "nope")).1 = false ∧
    (handleMcpDelete emptyServerState (some "nope")).1
        = HttpResponse.textResponse 400 "Invalid or missing session ID" ∧
    isJsonRpcErrorResponse (handleMcpDelete emptyServerState (some "nope")).1 = false := by
  decide

/-- Claim C5, amended: a POST with a truthy unknown session id, or a falsy
session id and a non-initialize body, answers HTTP 400 with JSON-RPC error
code -32000; a GET or DELETE with a falsy or unknown session id answers
HTTP 400 with the plain text body Invalid or missing session ID, with no
JSON-RPC error object. -/
theorem c5_bad_session_responses :
    (∀ (s : ServerState) (sessionId : Option String) (body : JSValue) (newSessionId : String),
        strTruthy sessionId = true → lookupTransport s (sessionId.getD "") = none →
        (handleMcpPost s sessionId body newSessionId).1
          = HttpResponse.jsonRpcError 400 (-32000)
              "Bad Request: No valid session ID provided") ∧
    (∀ (s : ServerState) (sessionId : Option String) (body : JSValue) (newSessionId : String),
        strTruthy sessionId = false → isInitializeRequest body = false →
        (handleMcpPost s sessionId body newSessionId).1
          = HttpResponse.jsonRpcError 400 (-32000)
              "Bad Request: No valid session ID provided") ∧
    (∀ (s : ServerState) (sessionId : Option String),
        strTruthy sessionId = false ∨ lookupTransport s (sessionId.getD "") = none →
        (handleMcpGet s sessionId).1
          = HttpResponse.textResponse 400 "Invalid or missing session ID") ∧
    (∀ (s : ServerState) (sessionId : Option String),
        strTruthy sessionId = false ∨ lookupTransport s (sessionId.getD "") = none →
        (handleMcpDelete s sessionId).1
          = HttpResponse.textResponse 400 "Invalid or missing session ID") := by
  refine ⟨?_, ?_, ?_, ?_⟩
  · intro s sessionId body newSessionId hsid hlook
    unfold handleMcpPost
    rw [if_neg (by simp [hlook]), if_neg (by simp [hsid])]
  · intro s sessionId body newSessionId hsid hbody
    unfold handleMcpPost
    rw [if_neg (by simp [hsid]), if_neg (by simp [hsid, hbody])]
  · intro s sessionId h
    unfold handleMcpGet
    rcases h with h | h
    · rw [if_pos (by simp [h])]
    · rw [if_pos (by simp [h])]
  · intro s sessionId h
    unfold handleMcpDelete
    rcases h with h | h
    · rw [if_pos (by simp [h])]
    · rw [if_pos (by simp [h])]

/-- Claim C5 witness: all four amended clauses applied at concrete bad
session ids against the empty registry. -/
theorem c5_witness :
    (handleMcpPost emptyServerState (some "ghost") sampleInitBody "u-2").1
        = HttpResponse.jsonRpcError 400 (-32000)
            "Bad Request: No valid session ID provided" ∧
    (handleMcpPost emptyServerState none (JSValue.str "hello") "u-2").1
        = HttpResponse.jsonRpcError 400 (-32000)
            "Bad Request: No valid session ID provided" ∧
    (handleMcpGet emptyServerState none).1
        = HttpResponse.textResponse 400 "Invalid or missing session ID" ∧
    (handleMcpDelete emptyServerState (some "ghost")).1
        = HttpResponse.textResponse 400 "Invalid or missing session ID" := by
  refine ⟨?_, ?_, ?_, ?_⟩
  · exact c5_bad_session_responses.1 emptyServerState (some "ghost") sampleInitBody "u-2"
      (by decide) (by decide)
  · exact c5_bad_session_responses.2.1 emptyServerState none (JSValue.str "hello") "u-2"
      (by decide) (by rfl)
  · exact c5_bad_session_responses.2.2.1 emptyServerState none (Or.inl (by decide))
  · exact c5_bad_session_responses.2.2.2 emptyServerState (some "ghost") (Or.inr (by decide))

/-- Claim C6, counterexample. The claim states that a resources/read with an
unknown uri returns a JSON-RPC error result. The handler catches the thrown
error and instead returns a normal success result whose single content item
embeds the message Unknown resource and the uri; it is not a JSON-RPC error
object. -/
theorem c6_counterexample :
    readResourceRequestHandler sampleClient sampleConfig "foo://unknown"
        = RpcOutcome.result
            [{ uri := "foo://unknown", mimeType := "application/json",
               text := resourceErrorText ("Unknown resource: " ++ "foo://unknown") }] ∧
    isRpcError (readResourceRequestHandler sampleClient sampleConfig "foo://unknown") = false := by
  constructor
  · rfl
  · rfl

/-- Claim C6, amended: a resources/read whose uri is not a known resource
URI returns a JSON-RPC success result (never an error result) whose single
content item names the unknown URI inside an embedded error message; the
handler is total, so the session remains active. -/
theorem c6_unknown_resource :
    ∀ (client : PodsClientModel) (cfg : PodsConfig) (uri : String),
      uri ∉ knownResourceUris →
      readResourceRequestHandler client cfg uri
        = RpcOutcome.result
            [{ uri := uri, mimeType := "application/json",
               text := resourceErrorText ("Unknown resource: " ++ uri) }] := by
  intro client cfg uri h
  simp only [knownResourceUris, List.mem_cons, List.mem_singleton, not_or] at h
  obtain ⟨h1, h2, -⟩ := h
  unfold readResourceRequestHandler
  rw [if_neg h1, if_neg h2]

/-- Claim C6 witness: the amended theorem applied at a concrete unknown
uri. -/
theorem c6_witness :
    readResourceRequestHandler sampleClient sampleConfig "foo://bad"
        = RpcOutcome.result
            [{ uri := "foo://bad", mimeType := "application/json",
               text := resourceErrorText ("Unknown resource: " ++ "foo://bad") }] :=
  c6_unknown_resource sampleClient sampleConfig "foo://bad" (by decide)

/-- Claim C7, counterexample. The claim states that event ids appended to a
session log are strictly increasing and never reused. The store assigns no
ids: it stores whatever event records the caller supplies, so appending two
events that carry the same id yields a log whose id sequence repeats an id. -/
theorem c7_counterexample :
    eventLog (addEvent (addEvent emptyEventStore "s" { id := "x", payload := "p1" }) "s"
        { id := "x", payload := "p2" }) "s"
      = [{ id := "x", payload := "p1" }, { id := "x", payload := "p2" }] ∧
    ¬ ((eventLog (addEvent (addEvent emptyEventStore "s" { id := "x", payload := "p1" }) "s"
        { id := "x", payload := "p2" }) "s").map MCPEvent.id).Nodup := by
  decide

/-- Claim C7, amended: the store appends events verbatim in call order and
assigns no ids, so the per-session log equals the prior log extended by the
appended events; consequently the id sequence of a session built from
scratch is strictly increasing exactly when the caller supplies events with
strictly increasing ids. -/
theorem c7_event_log_append :
    (∀ (store : InMemoryEventStore) (sid : String) (evs : List MCPEvent),
        eventLog (addEvents store sid evs) sid = eventLog store sid ++ evs) ∧
    (∀ (sid : String) (evs : List MCPEvent),
        List.Chain' (fun a b : MCPEvent => a.id < b.id)
            (eventLog (addEvents emptyEventStore sid evs) sid)
          ↔ List.Chain' (fun a b : MCPEvent => a.id < b.id) evs) := by
  constructor
  · intro store sid evs
    exact eventLog_addEvents store sid evs
  · intro sid evs
    rw [eventLog_addEvents]
    have hempty : eventLog emptyEventStore sid = [] := rfl
    rw [hempty, List.nil_append]

/-- The registry state after one session-creating initialize POST against
the empty registry. -/
def sampleReachableState : ServerState :=
  (handleMcpPost emptyServerState none sampleInitBody "sid-1").2

/-- Claim C8, confirmed: every session-creating POST constructs and
registers its transport with enableJsonResponse true, and in every registry
state reachable from process start every registered transport has
enableJsonResponse true, so the json response mode is decided at creation
and fixed for the session lifetime. -/
theorem c8_json_response_mode :
    (∀ (s : ServerState) (sessionId : Option String) (body : JSValue) (newSessionId : String),
        strTruthy sessionId = false → isInitializeRequest body = true →
        (handleMcpPost s sessionId body newSessionId).2.transports
          = s.transports ++ [(newSessionId, { enableJsonResponse := true })]) ∧
    (∀ s : ServerState, Reachable s →
        ∀ p ∈ s.transports, p.2.enableJsonResponse = true) := by
  constructor
  · intro s sessionId body newSessionId hsid hbody
    unfold handleMcpPost
    rw [if_neg (by simp [hsid]), if_pos (by simp [hsid, hbody])]
  · intro s hs
    induction hs with
    | refl =>
        intro p hp
        simp at hp
    | tail hab hbc ih =>
        rename_i b c
        intro p hp
        cases hbc with
        | post sessionId body newSessionId =>
            revert hp
            unfold handleMcpPost
            split_ifs with h1 h2
            · exact ih p
            · intro hp
              rcases List.mem_append.mp hp with hmem | hmem
              · exact ih p hmem
              · rw [List.mem_singleton.mp hmem]
            · exact ih p
        | get sessionId =>
            revert hp
            unfold handleMcpGet
            split_ifs
            · exact ih p
            · exact ih p
        | del sessionId =>
            revert hp
            unfold handleMcpDelete
            split_ifs
            · exact ih p
            · intro hp
              exact ih p (List.mem_of_mem_filter hp)

/-- Claim C8 witness: the creation clause applied at a concrete initialize
POST, and the invariant applied at the resulting reachable state. -/
theorem c8_witness :
    (handleMcpPost emptyServerState none sampleInitBody "sid-1").2.transports
        = emptyServerState.transports ++ [("sid-1", { enableJsonResponse := true })] ∧
    ("sid-1", ({ enableJsonResponse := true } : Transport)).2.enableJsonResponse = true := by
  constructor
  · exact c8_json_response_mode.1 emptyServerState none sampleInitBody "sid-1"
      (by decide) (by decide)
  · exact c8_json_response_mode.2 sampleReachableState
      (Relation.ReflTransGen.single (Step.post emptyServerState none sampleInitBody "sid-1"))
      ("sid-1", { enableJsonResponse := true }) (by decide)

/-- Claim C9, counterexample. The claim states that every outbound call to
the backend is bounded by a timeout. None of the seven requests built by
the pods client carries any timeout bound: makeRequest passes the options
to fetch unchanged apart from headers, and no caller sets a timeout or
abort signal. -/
theorem c9_counterexample :
    (getPodKeywordRequest sampleConfig).2.timeoutMs = none ∧
    (updatePodKeywordRequest sampleConfig "kw").2.timeoutMs = none ∧
    (getAllPodsRequest sampleConfig "ciscolivepods").2.timeoutMs = none ∧
    (getPodByNumberRequest sampleConfig "ciscolivepods" 1).2.timeoutMs = none ∧
    (createPodRequest sampleConfig "ciscolivepods" "pod-data").2.timeoutMs = none ∧
    (updatePodRequest sampleConfig "ciscolivepods" 1 "upd").2.timeoutMs = none ∧
    (deletePodRequest sampleConfig "ciscolivepods" 1).2.timeoutMs = none := by
  decide

/-- Claim C9, amended: outbound backend calls are issued with no client-side
timeout bound at all; what does hold is the downgrade half of the claim:
when the backend call fails for any reason (a runtime-level timeout
included), the tool handler catches the error and returns an isError true
result rather than a transport failure. -/
theorem c9_no_timeout_bound :
    (∀ (cfg : PodsConfig) (options : FetchOptions),
        (makeRequestInit cfg options).timeoutMs = options.timeoutMs) ∧
    (∀ (cfg : PodsConfig) (collection : String) (number : Int) (bodyText : String),
        (getPodKeywordRequest cfg).2.timeoutMs = none ∧
        (updatePodKeywordRequest cfg bodyText).2.timeoutMs = none ∧
        (getAllPodsRequest cfg collection).2.timeoutMs = none ∧
        (getPodByNumberRequest cfg collection number).2.timeoutMs = none ∧
        (createPodRequest cfg collection bodyText).2.timeoutMs = none ∧
        (updatePodRequest cfg collection number bodyText).2.timeoutMs = none ∧
        (deletePodRequest cfg collection number).2.timeoutMs = none) ∧
    (∀ (client : PodsClientModel) (name : String) (args : JSValue) (msg : String),
        dispatchTool client name args = Except.error msg →
        (callToolRequestHandler client name args).isError = true) := by
  refine ⟨?_, ?_, ?_⟩
  · intro cfg options
    rfl
  · intro cfg collection number bodyText
    exact ⟨rfl, rfl, rfl, rfl, rfl, rfl, rfl⟩
  · intro client name args msg h
    unfold callToolRequestHandler
    rw [h]

/-- Claim C9 witness: the pass-through clause and the downgrade clause
applied at concrete inputs, the latter at an adapter whose call fails with
a timeout message. -/
theorem c9_witness :
    (makeRequestInit sampleConfig
        { method := "GET", headers := [], body := none, timeoutMs := none }).timeoutMs
      = none ∧
    (callToolRequestHandler timeoutClient "get_pod_keyword" (JSValue.obj [])).isError
      = true := by
  constructor
  · exact c9_no_timeout_bound.1 sampleConfig
      { method := "GET", headers := [], body := none, timeoutMs := none }
  · exact c9_no_timeout_bound.2.2 timeoutClient "get_pod_keyword" (JSValue.obj [])
      "Request timed out" (by rfl)

/-- Claim C10, confirmed: the initialize check depends only on the
truthiness of the body and on its method field, so it ignores the jsonrpc,
id and params fields entirely; and a POST without a session id whose object
body has first field method set to initialize creates and registers a new
session whatever other fields the envelope carries. -/
theorem c10_shallow_init_check :
    (∀ (b1 b2 : JSValue),
        jsTruthy b1 = jsTruthy b2 → jsGetField b1 "method" = jsGetField b2 "method" →
        isInitializeRequest b1 = isInitializeRequest b2) ∧
    (∀ (s : ServerState) (rest : List (String × JSValue)) (newSessionId : String),
        (handleMcpPost s none
            (JSValue.obj (("method", JSValue.str "initialize") :: rest)) newSessionId).2.transports
          = s.transports ++ [(newSessionId, { enableJsonResponse := true })]) := by
  constructor
  · intro b1 b2 h1 h2
    unfold isInitializeRequest
    rw [h1, h2]
  · intro s rest newSessionId
    have hinit :
        isInitializeRequest (JSValue.obj (("method", JSValue.str "initialize") :: rest))
          = true := rfl
    unfold handleMcpPost
    rw [if_neg (by simp [strTruthy]), if_pos (by simp [strTruthy, hinit])]

/-- Claim C10 witness: two initialize bodies differing in every envelope
field beyond method are classified identically, and a concrete initialize
body carrying an unrelated extra field still creates a session. -/
theorem c10_witness :
    isInitializeRequest (JSValue.obj [("method", JSValue.str "initialize"),
        ("id", JSValue.num 1)])
      = isInitializeRequest (JSValue.obj [("method", JSValue.str "initialize"),
        ("jsonrpc", JSValue.str "2.0"), ("params", JSValue.obj [])]) ∧
    (handleMcpPost emptyServerState none
        (JSValue.obj (("method", JSValue.str "initialize")
          :: [("garbage", JSValue.num 42)])) "u-9").2.transports
      = emptyServerState.transports ++ [("u-9", { enableJsonResponse := true })] := by
  constructor
  · exact c10_shallow_init_check.1
      (JSValue.obj [("method", JSValue.str "initialize"), ("id", JSValue.num 1)])
      (JSValue.obj [("method", JSValue.str "initialize"),
        ("jsonrpc", JSValue.str "2.0"), ("params", JSValue.obj [])])
      (by rfl) (by rfl)
  · exact c10_shallow_init_check.2 emptyServerState [("garbage", JSValue.num 42)] "u-9"
